import Mathlib

/-!
A shallow embedding of the AnimeHelper-MCP query-and-resilience core
(`anime_helper/core/http_client.py`, `core/cache.py`, `core/normalizers.py`,
`tools/search.py`, `tools/airing.py`) together with proofs about the
behaviour its specification documents.

Python values flowing through these functions are JSON-like dictionaries;
they are modelled by the `Json` inductive below. Python `None` and JSON
`null` are identified (exactly as `json.loads` produces them). The mutable
clock, the network, and the process-global cache are modelled by passing
the current time, the transport outcome, and the cache state as explicit
arguments. Python exceptions are modelled with `Except`: an `.error`
value is an exception propagating to the nearest enclosing handler.
-/

inductive Json where
  | null : Json
  | bool : Bool → Json
  | num : ℚ → Json
  | str : String → Json
  | arr : List Json → Json
  | obj : List (String × Json) → Json

/-- Python truthiness (`bool(x)`) of a JSON value: `None`, `False`, `0`,
`""`, `[]` and `{}` are falsy, everything else truthy. -/
def Json.truthy : Json → Bool
  | .null => false
  | .bool b => b
  | .num q => q != 0
  | .str s => s != ""
  | .arr xs => !xs.isEmpty
  | .obj fs => !fs.isEmpty

/-- Python `a or b` (specialised to JSON values): `a` if truthy, else `b`. -/
def pyOr (a b : Json) : Json := if a.truthy then a else b

/-- Key lookup in a JSON object (used to state properties about returned
dictionaries); `none` when the value is not an object or lacks the key. -/
def jlookup (j : Json) (k : String) : Option Json :=
  match j with
  | .obj fs => List.lookup k fs
  | _ => none

/-- Python `d.get(k)` on a dictionary already known to be an object:
the value under `k`, or `None` when absent. -/
def jget (fs : List (String × Json)) (k : String) : Json :=
  (List.lookup k fs).getD Json.null

/-- Python `d[k]`: `KeyError` when the key is absent, `TypeError` when the
value is not a dictionary. -/
def pyIndex (j : Json) (k : String) : Except String Json :=
  match j with
  | .obj fs =>
    match List.lookup k fs with
    | some v => .ok v
    | none => .error ("KeyError: " ++ k)
  | _ => .error "TypeError: not subscriptable"

/-- Python `l[i]` for sequences (lists index into elements, strings into
one-character strings). -/
def pyListGet (j : Json) (i : Nat) : Except String Json :=
  match j with
  | .arr xs =>
    match xs.get? i with
    | some v => .ok v
    | none => .error "IndexError"
  | .str s =>
    match s.toList.get? i with
    | some c => .ok (.str (String.mk [c]))
    | none => .error "IndexError"
  | _ => .error "TypeError: not subscriptable"

/-- Python iteration `for x in j`: lists yield elements, strings yield
one-character strings, dictionaries yield their keys; other values raise
`TypeError`. -/
def pyIter (j : Json) : Except String (List Json) :=
  match j with
  | .arr xs => .ok xs
  | .str s => .ok (s.toList.map (fun c => Json.str (String.mk [c])))
  | .obj fs => .ok (fs.map (fun kv => Json.str kv.1))
  | _ => .error "TypeError: not iterable"

/-- Python `j.get(k)` (default `None`): `AttributeError` when `j` is not a
dictionary. -/
def dictGet (j : Json) (k : String) : Except String Json :=
  match j with
  | .obj fs => .ok (jget fs k)
  | _ => .error "AttributeError: get"

/-- Python `j.get(k, d)`: the default is used only when the key is absent
(a stored `None` is returned as-is). -/
def dictGetD (j : Json) (k : String) (d : Json) : Except String Json :=
  match j with
  | .obj fs => .ok ((List.lookup k fs).getD d)
  | _ => .error "AttributeError: get"

/-- `str.upper()` (character-wise uppercasing; written via the character
list so that it reduces definitionally). -/
def strUpper (s : String) : String := String.mk (s.toList.map Char.toUpper)

/-- `.upper()` on a value expected to be a string. -/
def pyUpper (j : Json) : Except String Json :=
  match j with
  | .str s => .ok (.str (strUpper s))
  | _ => .error "AttributeError: upper"

/-- Effectful map over a list, stopping at the first exception (Python
list comprehension / loop with an append per element). -/
def exMapM (f : Json → Except String Json) : List Json → Except String (List Json)
  | [] => .ok []
  | x :: xs =>
    match f x with
    | .error e => .error e
    | .ok y =>
      match exMapM f xs with
      | .error e => .error e
      | .ok ys => .ok (y :: ys)

/-- Effectful filter over a list (Python conditional list comprehension). -/
def exFilterM (p : Json → Except String Bool) : List Json → Except String (List Json)
  | [] => .ok []
  | x :: xs =>
    match p x with
    | .error e => .error e
    | .ok b =>
      match exFilterM p xs with
      | .error e => .error e
      | .ok ys => .ok (if b then x :: ys else ys)

example : (pyOr Json.null (Json.str "x")) = Json.str "x" := rfl
example : jget [("a", Json.num 1)] "b" = Json.null := rfl

/-!
## Resilient HTTP transport — `core/http_client.py`

`_req` performs up to 3 attempts (`for attempt in range(3)`). A response
whose status is in `RETRY_CODES` is converted into an `HTTPError` carrying
the response; the `except HTTPError` handler retries only when
`getattr(e, "response", None) and e.response.status_code in RETRY_CODES
and attempt < 2` holds. The first conjunct is the *truthiness* of the
response object: for the real `requests` library, `Response.__bool__` is
`self.ok`, i.e. `status_code < 400` — the test-suite's `DummyResponse`,
by contrast, is always truthy. The truthiness function is therefore an
explicit parameter of the model.

The transport itself is a function from the attempt index to an outcome:
a completed HTTP response with some status, or a network-level exception
(`requests.RequestException`).
-/

inductive TransportOutcome where
  | resp : Nat → TransportOutcome
  | netErr : TransportOutcome

inductive ReqResult where
  | ok : Nat → ReqResult
  | httpError : Nat → ReqResult
  | netError : ReqResult

def RETRY_CODES : List Nat := [429, 500, 502, 503, 504]

/-- Truthiness of a `requests.Response` with the given status code:
`Response.__bool__` returns `self.ok`, which is `status_code < 400`. -/
def requestsRespBool (s : Nat) : Bool := decide (s < 400)

/-- Truthiness of the test-suite's `DummyResponse` (a plain object with no
`__bool__`): always `True`. -/
def dummyRespBool (_ : Nat) : Bool := true

/-- The retry loop of `_req`, with `retriesLeft = 2 - attempt` remaining
retries (the loop runs `attempt = 0, 1, 2` and the handlers retry only
while `attempt < 2`). Returns the outcome together with the total number
of attempts that were made. -/
def reqLoop (respBool : Nat → Bool) (t : Nat → TransportOutcome) (attempt : Nat) :
    Nat → ReqResult × Nat
  | 0 =>
    match t attempt with
    | .resp s =>
      if RETRY_CODES.contains s then (.httpError s, attempt + 1) else (.ok s, attempt + 1)
    | .netErr => (.netError, attempt + 1)
  | r + 1 =>
    match t attempt with
    | .resp s =>
      if RETRY_CODES.contains s then
        -- handler: `if response and status in RETRY_CODES and attempt < 2`
        if respBool s then reqLoop respBool t (attempt + 1) r
        else (.httpError s, attempt + 1)
      else (.ok s, attempt + 1)
    | .netErr => reqLoop respBool t (attempt + 1) r

/-- `_req(method, url)`: three total attempts starting at attempt 0. -/
def _req (respBool : Nat → Bool) (t : Nat → TransportOutcome) : ReqResult × Nat :=
  reqLoop respBool t 0 2

example : _req requestsRespBool (fun _ => .resp 200) = (.ok 200, 1) := rfl
example : _req requestsRespBool (fun _ => .resp 404) = (.ok 404, 1) := rfl
example : _req requestsRespBool (fun _ => .resp 503) = (.httpError 503, 1) := rfl
example : _req dummyRespBool (fun _ => .resp 503) = (.httpError 503, 3) := rfl
example : _req requestsRespBool (fun _ => .netErr) = (.netError, 3) := rfl

/-!
## SHA-1 (`hashlib.sha1(...).hexdigest()`)

A byte-level implementation of SHA-1 used by the cache-key function.
32-bit words are `Nat`s kept below `2^32` by explicit reduction.
-/

def UINT32_MOD : Nat := 4294967296

def rotl32 (n x : Nat) : Nat := ((x <<< n) % UINT32_MOD) ||| (x >>> (32 - n))

def sha1K (i : Nat) : Nat :=
  if i < 20 then 0x5A827999
  else if i < 40 then 0x6ED9EBA1
  else if i < 60 then 0x8F1BBCDC
  else 0xCA62C1D6

def sha1F (i b c d : Nat) : Nat :=
  if i < 20 then (b &&& c) ||| ((b ^^^ 0xFFFFFFFF) &&& d)
  else if i < 40 then b ^^^ c ^^^ d
  else if i < 60 then (b &&& c) ||| (b &&& d) ||| (c &&& d)
  else b ^^^ c ^^^ d

/-- Message padding: append `0x80`, zero bytes up to 56 mod 64, then the
bit length as a 64-bit big-endian integer. -/
def sha1Pad (msg : List Nat) : List Nat :=
  let ml := msg.length * 8
  let zeros := (119 - msg.length % 64) % 64
  msg ++ [0x80] ++ List.replicate zeros 0 ++
    ((List.range 8).map (fun i => (ml >>> (8 * (7 - i))) % 256))

def bytesToWord (b0 b1 b2 b3 : Nat) : Nat :=
  (b0 <<< 24) + (b1 <<< 16) + (b2 <<< 8) + b3

def toWords : List Nat → List Nat
  | b0 :: b1 :: b2 :: b3 :: rest => bytesToWord b0 b1 b2 b3 :: toWords rest
  | _ => []

def chunks64 : List Nat → List (List Nat)
  | [] => []
  | b :: rest => (b :: rest).take 64 :: chunks64 ((b :: rest).drop 64)
termination_by l => l.length
decreasing_by simp; omega

/-- One step of the message-schedule extension
(`w[i] = rotl1 (w[i-3] xor w[i-8] xor w[i-14] xor w[i-16])`). -/
def extendStep (ws : List Nat) : List Nat :=
  let n := ws.length
  ws ++ [rotl32 1 (((ws.getD (n - 3) 0) ^^^ (ws.getD (n - 8) 0)) ^^^
    ((ws.getD (n - 14) 0) ^^^ (ws.getD (n - 16) 0)))]

def extendWords (ws : List Nat) : Nat → List Nat
  | 0 => ws
  | k + 1 => extendWords (extendStep ws) k

def add32 (a b : Nat) : Nat := (a + b) % UINT32_MOD

/-- SHA-1 compression of one 64-byte chunk into the running state. -/
def sha1Compress (h : List Nat) (chunk : List Nat) : List Nat :=
  let w := extendWords (toWords chunk) 64
  let s := (List.range 80).foldl
    (fun (st : Nat × Nat × Nat × Nat × Nat) i =>
      let a := st.1
      let b := st.2.1
      let c := st.2.2.1
      let d := st.2.2.2.1
      let e := st.2.2.2.2
      let temp := (rotl32 5 a + sha1F i b c d + e + sha1K i + w.getD i 0) % UINT32_MOD
      (temp, a, rotl32 30 b, c, d))
    (h.getD 0 0, h.getD 1 0, h.getD 2 0, h.getD 3 0, h.getD 4 0)
  [add32 (h.getD 0 0) s.1, add32 (h.getD 1 0) s.2.1, add32 (h.getD 2 0) s.2.2.1,
    add32 (h.getD 3 0) s.2.2.2.1, add32 (h.getD 4 0) s.2.2.2.2]

def sha1Init : List Nat := [0x67452301, 0xEFCDAB89, 0x98BADCFE, 0x10325476, 0xC3D2E1F0]

def hexCharLower (n : Nat) : Char :=
  if n < 10 then Char.ofNat (48 + n) else Char.ofNat (87 + n)

def word8Hex (w : Nat) : String :=
  String.mk ((List.range 8).map (fun i => hexCharLower ((w >>> (4 * (7 - i))) % 16)))

def utf8Bytes (s : String) : List Nat := s.toUTF8.toList.map (fun b => b.toNat)

/-- `hashlib.sha1(s.encode("utf-8")).hexdigest()`. -/
def sha1Hexdigest (s : String) : String :=
  String.join ((((chunks64 (sha1Pad (utf8Bytes s))).foldl sha1Compress sha1Init)).map word8Hex)

/-!
## `json.dumps` (as used by `core/cache.py`)

`_cache_key_gql` serializes the variables with `sort_keys=True,
ensure_ascii=False`; `gql` serializes a GraphQL error list with
`ensure_ascii=False` only. The model renders objects and arrays exactly as
Python (default separators `", "` and `": "`, recursive key sorting when
requested); the rendering of non-integral numbers is a deterministic
placeholder (`num/den`) rather than Python's float repr — no property in
this development depends on those digits, only on the serializer being a
function and on its key ordering.
-/

def jsonEscapeChar (c : Char) : String :=
  if c == '"' then "\\\""
  else if c == '\\' then "\\\\"
  else if c == '\n' then "\\n"
  else if c == '\t' then "\\t"
  else if c == '\r' then "\\r"
  else String.mk [c]

def strRepr (s : String) : String :=
  "\"" ++ String.join (s.toList.map jsonEscapeChar) ++ "\""

def ratRepr (q : ℚ) : String :=
  if q.den == 1 then toString q.num else toString q.num ++ "/" ++ toString q.den

def jsonDumps (sortKeys : Bool) : Json → String
  | .null => "null"
  | .bool b => if b then "true" else "false"
  | .num q => ratRepr q
  | .str s => strRepr s
  | .arr xs => "[" ++ ", ".intercalate (xs.attach.map (fun x => jsonDumps sortKeys x.1)) ++ "]"
  | .obj fs =>
    let pairs := fs.attach.map (fun kv => (kv.1.1, jsonDumps sortKeys kv.1.2))
    let ordered := if sortKeys then pairs.mergeSort (fun a b => decide (a.1 ≤ b.1)) else pairs
    "\x7b" ++ ", ".intercalate (ordered.map (fun p => strRepr p.1 ++ ": " ++ p.2)) ++ "\x7d"
decreasing_by
  · have := List.sizeOf_lt_of_mem x.2
    simp only [Json.arr.sizeOf_spec]
    omega
  · obtain ⟨⟨k, v⟩, hm⟩ := kv
    have := List.sizeOf_lt_of_mem hm
    simp only [Prod.mk.sizeOf_spec] at this
    simp only [Json.obj.sizeOf_spec]
    omega

/-!
## Query cache — `core/cache.py`

The process-global `_CACHE` dictionary and its hit/miss counters are an
explicit `CacheState`; `time.time()` is an explicit rational `now`. The
`http_post` call inside `gql` is modelled by an explicit `fetch` argument:
`.ok body` is a completed POST whose `r.json()` parsed to `body`, `.error`
is an exception raised by the transport (propagating to the tool layer).
-/

structure CacheState where
  entries : List (String × ℚ × Json)
  hits : Nat
  misses : Nat

def CACHE_TTL : ℚ := 300

/-- Python dict insertion `_CACHE[k] = v`: replace in place, else append. -/
def cacheInsert (k : String) (v : ℚ × Json) :
    List (String × ℚ × Json) → List (String × ℚ × Json)
  | [] => [(k, v)]
  | (k2, v2) :: rest => if k2 == k then (k, v) :: rest else (k2, v2) :: cacheInsert k v rest

/-- Python `_CACHE.pop(k, None)`. -/
def cacheErase (k : String) : List (String × ℚ × Json) → List (String × ℚ × Json)
  | [] => []
  | (k2, v2) :: rest => if k2 == k then rest else (k2, v2) :: cacheErase k rest

/-- `_cache_key_gql(query, variables)`:
`f"GQL|{sha1(query)}|{sha1(json.dumps(variables, sort_keys=True, ensure_ascii=False))}"`. -/
def _cache_key_gql (query : String) (vars : Json) : String :=
  "GQL|" ++ sha1Hexdigest query ++ "|" ++ sha1Hexdigest (jsonDumps true vars)

/-- `_cache_get(k)`: a missing key is a miss; a present entry with
`exp < now` is evicted and counted as a miss; otherwise a hit returning
the stored value. -/
def _cache_get (st : CacheState) (now : ℚ) (k : String) : Option Json × CacheState :=
  match List.lookup k st.entries with
  | none => (none, { st with misses := st.misses + 1 })
  | some (exp, data) =>
    if exp < now then
      (none, { entries := cacheErase k st.entries, hits := st.hits, misses := st.misses + 1 })
    else
      (some data, { st with hits := st.hits + 1 })

/-- `_cache_set(k, data, ttl)`: store with expiry `now + ttl`. -/
def _cache_set (st : CacheState) (now : ℚ) (k : String) (data : Json) (ttl : ℚ) : CacheState :=
  { st with entries := cacheInsert k (now + ttl, data) st.entries }

/-- Python `"errors" in data` (dict key membership; lists and strings use
element/substring membership; other values raise `TypeError`). -/
def pyContains (j : Json) (k : String) : Except String Bool :=
  match j with
  | .obj fs => .ok (List.lookup k fs).isSome
  | .arr xs => .ok (xs.any (fun x => match x with | .str s => s == k | _ => false))
  | .str s => .ok ((s.splitOn k).length != 1)
  | _ => .error "TypeError: argument of type is not iterable"

/-- `gql(query, variables)`: check the cache; on a miss POST the query,
fail (raising `RuntimeError` with the serialized error list) when the
body contains an `errors` field — without caching — and otherwise cache
and return the body's `data` field. Returns the result together with the
updated cache state. -/
def gql (st : CacheState) (now : ℚ) (fetch : Except String Json) (query : String)
    (vars : Json) : Except String Json × CacheState :=
  match _cache_get st now (_cache_key_gql query vars) with
  | (some cached, st1) => (.ok cached, st1)
  | (none, st1) =>
    match fetch with
    | .error e => (.error e, st1)
    | .ok body =>
      match pyContains body "errors" with
      | .error m => (.error m, st1)
      | .ok true =>
        match pyIndex body "errors" with
        | .ok errs => (.error (jsonDumps false errs), st1)
        | .error m => (.error m, st1)
      | .ok false =>
        match pyIndex body "data" with
        | .ok out => (.ok out, _cache_set st1 now (_cache_key_gql query vars) out CACHE_TTL)
        | .error m => (.error m, st1)

/-!
## Normalizers — `core/normalizers.py`

Exceptions (`AttributeError` from calling `.get`/`.replace`/`.upper` on a
non-dictionary/non-string value) are modelled with `Except String`. Field
reads on a value already known to be a dictionary cannot fail and are the
plain `jget`.
-/

/-- `norm_title(t)`: passthrough extraction of three nullable fields;
raises when `t` is not a dictionary. -/
def norm_title (t : Json) : Except String Json :=
  match t with
  | .obj fs =>
    .ok (.obj [("romaji", jget fs "romaji"), ("english", jget fs "english"),
      ("native", jget fs "native")])
  | _ => .error "AttributeError: get"

/-- `m.get("seasonYear") or (m.get("startDate", {}) or {}).get("year")`
(the right operand is evaluated only when `seasonYear` is falsy). -/
def anilistYear (fs : List (String × Json)) : Except String Json :=
  if (jget fs "seasonYear").truthy then .ok (jget fs "seasonYear")
  else
    match pyOr ((List.lookup "startDate" fs).getD (.obj [])) (.obj []) with
    | .obj sfs => .ok (jget sfs "year")
    | _ => .error "AttributeError: get"

/-- `norm_hit_from_anilist(m)`: builds a MediaHit dictionary; `title`
defaults to `{}` only when *absent* (a stored `null` is passed to
`norm_title` as-is, which raises). -/
def norm_hit_from_anilist (m : Json) : Except String Json :=
  match m with
  | .obj fs =>
    match norm_title ((List.lookup "title" fs).getD (.obj [])) with
    | .error e => .error e
    | .ok titles =>
      match anilistYear fs with
      | .error e => .error e
      | .ok year =>
        .ok (.obj [("source", .str "anilist"), ("id", jget fs "id"),
          ("idMal", jget fs "idMal"), ("titles", titles), ("year", year),
          ("format", jget fs "format"), ("episodes", jget fs "episodes"),
          ("chapters", jget fs "chapters"), ("score", jget fs "averageScore"),
          ("url", jget fs "siteUrl")])
  | _ => .error "AttributeError: get"

/-- The recommendation loop of `norm_details_from_anilist`:
`mr = node.get("mediaRecommendation") or {}`, appending
`norm_hit_from_anilist(mr)` when `mr` is truthy. -/
def recsLoop : List Json → Except String (List Json)
  | [] => .ok []
  | n :: rest =>
    match n with
    | .obj nfs =>
      if (pyOr (jget nfs "mediaRecommendation") (.obj [])).truthy then
        match norm_hit_from_anilist (pyOr (jget nfs "mediaRecommendation") (.obj [])) with
        | .error e => .error e
        | .ok h =>
          match recsLoop rest with
          | .error e => .error e
          | .ok hs => .ok (h :: hs)
      else recsLoop rest
    | _ => .error "AttributeError: get"

/-- `(m.get("recommendations", {}) or {}).get("nodes", [])`, iterated. -/
def detailsRecs (fs : List (String × Json)) : Except String (List Json) :=
  match pyOr ((List.lookup "recommendations" fs).getD (.obj [])) (.obj []) with
  | .obj rfs =>
    match pyIter ((List.lookup "nodes" rfs).getD (.arr [])) with
    | .error e => .error e
    | .ok ns => recsLoop ns
  | _ => .error "AttributeError: get"

/-- One element of the `externalLinks` comprehension:
`{"site": ex.get("site") or ex.get("type") or "", "url": ex.get("url") or ""}`. -/
def extItem (ex : Json) : Except String Json :=
  match ex with
  | .obj efs =>
    .ok (.obj [("site", pyOr (jget efs "site") (pyOr (jget efs "type") (.str ""))),
      ("url", pyOr (jget efs "url") (.str ""))])
  | _ => .error "AttributeError: get"

def detailsExternals (fs : List (String × Json)) : Except String (List Json) :=
  match pyIter (pyOr (jget fs "externalLinks") (.arr [])) with
  | .error e => .error e
  | .ok exs => exMapM extItem exs

/-- One element of the `tags` comprehension: `t.get("name")`. -/
def tagName (t : Json) : Except String Json :=
  match t with
  | .obj tfs => .ok (jget tfs "name")
  | _ => .error "AttributeError: get"

def detailsTags (fs : List (String × Json)) : Except String (List Json) :=
  match pyIter (pyOr (jget fs "tags") (.arr [])) with
  | .error e => .error e
  | .ok ts => exMapM tagName ts

/-- `(m.get("description") or "").replace("<br>", "\n")`. -/
def detailsSynopsis (fs : List (String × Json)) : Except String String :=
  match pyOr (jget fs "description") (.str "") with
  | .str s => .ok (s.replace "<br>" "\n")
  | _ => .error "AttributeError: replace"

/-- `norm_details_from_anilist(m)`: the full Details dictionary. The
failure points are evaluated in the source's order: the recommendation
loop, the external-links comprehension, then inside the result literal
`norm_title`, the tags comprehension and the synopsis replacement. -/
def norm_details_from_anilist (m : Json) : Except String Json :=
  match m with
  | .obj fs =>
    match detailsRecs fs with
    | .error e => .error e
    | .ok recs =>
      match detailsExternals fs with
      | .error e => .error e
      | .ok externals =>
        match norm_title ((List.lookup "title" fs).getD (.obj [])) with
        | .error e => .error e
        | .ok titles =>
          match detailsTags fs with
          | .error e => .error e
          | .ok tags =>
            match detailsSynopsis fs with
            | .error e => .error e
            | .ok synopsis =>
              .ok (.obj [("source", .str "anilist"), ("id", jget fs "id"),
                ("idMal", jget fs "idMal"), ("titles", titles),
                ("format", jget fs "format"), ("status", jget fs "status"),
                ("episodes", jget fs "episodes"), ("chapters", jget fs "chapters"),
                ("genres", pyOr (jget fs "genres") (.arr [])), ("tags", .arr tags),
                ("score", .obj [("anilist", jget fs "averageScore"), ("mal", .null)]),
                ("synopsis", .str synopsis), ("url", jget fs "siteUrl"),
                ("external", .arr externals), ("recommendations", .arr recs)])
  | _ => .error "AttributeError: get"

example : norm_title (.obj []) = .ok (.obj [("romaji", .null), ("english", .null),
  ("native", .null)]) := rfl
example : (norm_hit_from_anilist (.obj [("title", Json.null)])).isOk = false := rfl
example : (norm_hit_from_anilist (.obj [])).isOk = true := rfl
example : (norm_details_from_anilist (.obj [])).isOk = true := rfl

/-!
## Tool layer — `tools/search.py` and `tools/airing.py`

Python exceptions crossing the tool boundary are distinguished the way the
`except` clauses do: `requests.Timeout`, `requests.HTTPError` (carrying an
optional attached response status) and everything else. The cached GraphQL
executor and the REST `http_get` are modelled as oracle functions from the
request to an outcome: `.ok body` is a completed call whose JSON body
parsed to `body`, `.exc e` is a raised exception.
-/

inductive PyExc where
  | timeout : PyExc
  | httpError : Option Nat → String → PyExc
  | other : String → PyExc

inductive CallResult where
  | ok : Json → CallResult
  | exc : PyExc → CallResult

def SCHEMA : String := "1.0.0"

/-- `err_payload(source, code, message)` from `core/http_client.py`. -/
def err_payload (source code message : String) : Json :=
  .obj [("schemaVersion", .str SCHEMA),
    ("error", .obj [("code", .str code), ("message", .str message), ("source", .str source)])]

/-- `sc = e.response.status_code if getattr(e, "response", None) else 0`:
like the retry handler, this tests the *truthiness* of the attached
`requests.Response`, which is falsy precisely for status ≥ 400. -/
def upstreamStatus (resp : Option Nat) : Nat :=
  match resp with
  | some s => if requestsRespBool s then s else 0
  | none => 0

/-- The common `except` ladder of every tool operation. -/
def excToEnvelope (src : String) (e : PyExc) : Json :=
  match e with
  | .timeout => err_payload src "TIMEOUT" "Upstream timed out"
  | .httpError resp msg => err_payload src ("UPSTREAM_" ++ toString (upstreamStatus resp)) msg
  | .other msg => err_payload src "UNEXPECTED" msg

/-- `int(x)` on a Python float: truncation toward zero
(`|q|` floored by natural division, with the sign restored). -/
def ratTrunc (q : ℚ) : Int := Int.sign q.num * ((q.num.natAbs / q.den : Nat) : Int)

/-- `int(score * 10) if isinstance(score, (int, float)) else None`.
(`bool` is an `int` subclass in Python, so JSON booleans pass the
`isinstance` test with `True == 1` and `False == 0`.) -/
def jikanScore : Json → Json
  | .num q => .num ((ratTrunc (q * 10) : ℤ) : ℚ)
  | .bool b => .num (if b then 10 else 0)
  | _ => .null

def hexCharUpper (n : Nat) : Char :=
  if n < 10 then Char.ofNat (48 + n) else Char.ofNat (55 + n)

/-- `urllib.parse.quote_plus`: alphanumerics and `_.-~` kept, space to
`+`, anything else percent-encoded by UTF-8 byte. -/
def quotePlusChar (c : Char) : String :=
  if c.isAlphanum || c == '-' || c == '_' || c == '.' || c == '~' then String.mk [c]
  else if c == ' ' then "+"
  else String.join ((utf8Bytes (String.mk [c])).map (fun b =>
    "%" ++ String.mk [hexCharUpper (b / 16), hexCharUpper (b % 16)]))

def quotePlus (s : String) : String := String.join (s.toList.map quotePlusChar)

/-- `urllib.parse.urlencode` over the parameters in insertion order. -/
def urlencode (ps : List (String × String)) : String :=
  "&".intercalate (ps.map (fun p => quotePlus p.1 ++ "=" ++ quotePlus p.2))

/-- The GraphQL search query text of `search_media` (whitespace
compacted; it is an opaque key to the transport oracle). -/
def anilistSearchGql : String :=
  "query ($q: String, $type: MediaType, $per: Int, $formats:[MediaFormat!]) \x7b Page(perPage: $per) \x7b media(search: $q, type: $type, sort: [SEARCH_MATCH, POPULARITY_DESC], format_in: $formats) \x7b id idMal siteUrl format episodes chapters averageScore seasonYear startDate \x7b year \x7d title \x7b romaji english native \x7d \x7d \x7d \x7d"

def jl_map : List (String × String) :=
  [("TV", "tv"), ("MOVIE", "movie"), ("OVA", "ova"), ("ONA", "ona"), ("SPECIAL", "special")]

/-- `format_in` serialized into the GraphQL variables / result envelope. -/
def formatsJson : Option (List String) → Json
  | none => .null
  | some fs => .arr (fs.map Json.str)

/-- One item of the jikan result loop in `search_media`: builds the
MediaHit dictionary for `it`. -/
def jikanHitOfItem (kindU : String) (it : Json) : Except String Json :=
  match it with
  | .obj fs =>
    match pyUpper (pyOr (jget fs "type") (.str "")) with
    | .error e => .error e
    | .ok fmt =>
      .ok (.obj [("source", .str "jikan"), ("id", jget fs "mal_id"),
        ("idMal", jget fs "mal_id"),
        ("titles", .obj [("romaji", jget fs "title"), ("english", jget fs "title_english"),
          ("native", .null)]),
        ("year", jget fs "year"), ("format", fmt),
        ("episodes", if kindU == "ANIME" then jget fs "episodes" else .null),
        ("chapters", if kindU == "MANGA" then jget fs "chapters" else .null),
        ("score", jikanScore (jget fs "score")), ("url", jget fs "url")])
  | _ => .error "AttributeError: get"

/-- The manga-format post-filter:
`if formats and kind == "MANGA": out = [h for h in out if (h.get("format") or "").upper() in formats]`. -/
def fmtKeep (fs : List String) (h : Json) : Except String Bool :=
  match h with
  | .obj hfs =>
    match pyOr (jget hfs "format") (.str "") with
    | .str s => .ok (fs.contains (strUpper s))
    | _ => .error "AttributeError: upper"
  | _ => .error "AttributeError: get"

def mangaFilter (formats : Option (List String)) (kindU : String) (out : List Json) :
    Except String (List Json) :=
  match formats with
  | none => .ok out
  | some fs =>
    if fs.isEmpty then .ok out
    else if kindU == "MANGA" then exFilterM (fmtKeep fs) out
    else .ok out

/-- The `source == "anilist"` branch of `search_media`, whose inner
`try/except` turns *any* failure into a fallback to jikan (`.error ()`). -/
def anilistAttempt (gqlFn : String → Json → CallResult) (query kindU : String) (lim : Int)
    (formats : Option (List String)) : Except Unit Json :=
  match gqlFn anilistSearchGql (.obj [("q", .str query), ("type", .str kindU),
      ("per", .num (lim : ℚ)), ("formats", formatsJson formats)]) with
  | .exc _ => .error ()
  | .ok data =>
    match pyIndex data "Page" with
    | .error _ => .error ()
    | .ok page =>
      match pyIndex page "media" with
      | .error _ => .error ()
      | .ok media =>
        match pyIter media with
        | .error _ => .error ()
        | .ok ms =>
          match exMapM norm_hit_from_anilist ms with
          | .error _ => .error ()
          | .ok hits =>
            .ok (.obj [("schemaVersion", .str SCHEMA), ("query", .str query),
              ("kind", .str kindU), ("source", .str "anilist"),
              ("format_in", formatsJson formats), ("results", .arr (hits.take lim.toNat))])

/-- The URL of the jikan request: `base + "?" + urlencode(params)`, with
`params = {"q": query, "limit": str(limit)}` plus `type` when a format
maps through `jl_map` and the kind is ANIME. -/
def jikanUrl (query kindU : String) (lim : Int) (formats : Option (List String)) : String :=
  (if kindU == "ANIME" then "https://api.jikan.moe/v4/anime"
    else "https://api.jikan.moe/v4/manga")
    ++ "?" ++ urlencode ([("q", query), ("limit", toString lim)] ++
      (match (formats.getD []).findSome? (fun f => List.lookup f jl_map) with
       | some t => if kindU == "ANIME" then [("type", t)] else []
       | none => []))

/-- The jikan branch of `search_media` (primary fallback path). Note that
the clamped limit is passed as a query-string parameter but the returned
item list is *not* truncated. -/
def jikanBranch (httpGetFn : String → CallResult) (query kindU : String) (lim : Int)
    (formats : Option (List String)) : Except PyExc Json :=
  match httpGetFn (jikanUrl query kindU lim formats) with
  | .exc e => .error e
  | .ok payload =>
    match payload with
    | .obj pfs =>
      match pyIter ((List.lookup "data" pfs).getD (.arr [])) with
      | .error m => .error (.other m)
      | .ok items =>
        match exMapM (jikanHitOfItem kindU) items with
        | .error m => .error (.other m)
        | .ok out =>
          match mangaFilter formats kindU out with
          | .error m => .error (.other m)
          | .ok outF =>
            .ok (.obj [("schemaVersion", .str SCHEMA), ("query", .str query),
              ("kind", .str kindU), ("source", .str "jikan"),
              ("format_in", formatsJson formats), ("results", .arr outF)])
    | _ => .error (.other "AttributeError: get")

/-- `limit = min(max(limit, 1), 25)`. -/
def clampLimit (limit : Int) : Int := min (max limit 1) 25

/-- `formats = [f.upper() for f in (format_in or [])] or None`. -/
def upperFormats (format_in : Option (List String)) : Option (List String) :=
  if ((format_in.getD []).map (fun f => strUpper f)).isEmpty then none
  else some ((format_in.getD []).map (fun f => strUpper f))

/-- `search_media(query, kind, source, limit, format_in)`. The Python
function returns a dictionary — or `None` when it falls through both
source branches; the exception ladder wraps failures with the *original*
`source` argument (`src`). -/
def search_media (gqlFn : String → Json → CallResult) (httpGetFn : String → CallResult)
    (query kind source : String) (limit : Int) (format_in : Option (List String)) :
    Option Json :=
  if source == "anilist" then
    match anilistAttempt gqlFn query (strUpper kind) (clampLimit limit) (upperFormats format_in) with
    | .ok env => some env
    | .error _ =>
      match jikanBranch httpGetFn query (strUpper kind) (clampLimit limit) (upperFormats format_in) with
      | .ok env => some env
      | .error e => some (excToEnvelope source e)
  else if source == "jikan" then
    match jikanBranch httpGetFn query (strUpper kind) (clampLimit limit) (upperFormats format_in) with
    | .ok env => some env
    | .error e => some (excToEnvelope source e)
  else none

/-- The media-resolution query text of `airing_status` (whitespace
compacted; it is an opaque key to the transport oracle). -/
def airingSearchGql : String :=
  "query ($q:String)\x7b Page(perPage:1)\x7b media(search:$q, type:ANIME, sort:[SEARCH_MATCH,POPULARITY_DESC])\x7b id \x7d \x7d \x7d"

/-- The airing-schedule query text of `airing_status`. -/
def airingStatusGql : String :=
  "query ($id:Int)\x7b Media(id:$id, type:ANIME)\x7b id siteUrl title\x7bromaji english native\x7d nextAiringEpisode\x7b episode airingAt \x7d airingSchedule(notYetAired:false, perPage:1, sort:TIME_DESC)\x7b nodes\x7b episode airingAt \x7d \x7d \x7d \x7d"

def notFoundEnv (q : String) : Json :=
  .obj [("schemaVersion", .str SCHEMA), ("query", .str q), ("status", .str "NOT_FOUND")]

/-- `{"episode": n.get("episode"), "airingAt": n.get("airingAt")} if n else None`. -/
def episodePair (n : Json) : Except String Json :=
  if n.truthy then
    match n with
    | .obj nfs => .ok (.obj [("episode", jget nfs "episode"), ("airingAt", jget nfs "airingAt")])
    | _ => .error "AttributeError: get"
  else .ok Json.null

/-- The second half of `airing_status`: fetch `Media(id=mid)` and build
the last/next envelope. -/
def airingWithMid (gqlFn : String → Json → CallResult) (mid : Json) : Except PyExc Json :=
  match gqlFn airingStatusGql (.obj [("id", mid)]) with
  | .exc e => .error e
  | .ok data2 =>
    match pyIndex data2 "Media" with
    | .error m => .error (.other m)
    | .ok mj =>
      match mj with
      | .obj mfs =>
        match pyOr (jget mfs "airingSchedule") (.obj []) with
        | .obj afs =>
          match (if (pyOr (jget afs "nodes") (.arr [])).truthy then
              pyListGet (pyOr (jget afs "nodes") (.arr [])) 0
            else .ok Json.null) with
          | .error m => .error (.other m)
          | .ok last =>
            match List.lookup "id" mfs with
            | none => .error (.other "KeyError: id")
            | some idv =>
              match norm_title ((List.lookup "title" mfs).getD (.obj [])) with
              | .error m => .error (.other m)
              | .ok titles =>
                match episodePair last with
                | .error m => .error (.other m)
                | .ok lastJ =>
                  match episodePair (jget mfs "nextAiringEpisode") with
                  | .error m => .error (.other m)
                  | .ok nextJ =>
                    .ok (.obj [("schemaVersion", .str SCHEMA), ("id", idv),
                      ("titles", titles), ("url", jget mfs "siteUrl"),
                      ("last", lastJ), ("next", nextJ)])
        | _ => .error (.other "AttributeError: get")
      | _ => .error (.other "AttributeError: get")

/-- The `try` body of `airing_status(anilist_id, query)`: `BAD_REQUEST`
when neither a non-`None` id nor a truthy query is given; `NOT_FOUND`
when the query resolves to an empty candidate list. -/
def airingBody (gqlFn : String → Json → CallResult) (anilist_id : Option Int)
    (query : Option String) : Except PyExc Json :=
  match anilist_id with
  | some aid => airingWithMid gqlFn (.num (aid : ℚ))
  | none =>
    match query with
    | none => .ok (err_payload "anilist" "BAD_REQUEST" "Provide anilist_id or query")
    | some q =>
      if q == "" then .ok (err_payload "anilist" "BAD_REQUEST" "Provide anilist_id or query")
      else
        match gqlFn airingSearchGql (.obj [("q", .str q)]) with
        | .exc e => .error e
        | .ok data =>
          match pyIndex data "Page" with
          | .error m => .error (.other m)
          | .ok page =>
            match pyIndex page "media" with
            | .error m => .error (.other m)
            | .ok media =>
              if !media.truthy then .ok (notFoundEnv q)
              else
                match pyListGet media 0 with
                | .error m => .error (.other m)
                | .ok m0 =>
                  match pyIndex m0 "id" with
                  | .error m => .error (.other m)
                  | .ok mid => airingWithMid gqlFn mid

/-- `airing_status(anilist_id, query)` with the exception ladder applied
(its `src` is always `"anilist"`). -/
def airing_status (gqlFn : String → Json → CallResult) (anilist_id : Option Int)
    (query : Option String) : Json :=
  match airingBody gqlFn anilist_id query with
  | .ok env => env
  | .error e => excToEnvelope "anilist" e

/-!
## Helper lemmas
-/

theorem mem_of_lookup_eq_some {β : Type} {k : String} {v : β} :
    ∀ {l : List (String × β)}, List.lookup k l = some v → (k, v) ∈ l := by
  intro l
  induction l with
  | nil => simp [List.lookup]
  | cons hd t ih =>
    obtain ⟨k2, v2⟩ := hd
    intro h
    rw [List.lookup] at h
    by_cases hk : k == k2
    · rw [hk] at h
      simp only [Option.some.injEq] at h
      subst h
      have : k = k2 := by simpa using hk
      subst this
      exact List.mem_cons_self _ _
    · rw [Bool.not_eq_true] at hk
      rw [hk] at h
      exact List.mem_cons_of_mem _ (ih h)

theorem excToEnvelope_schema (src : String) (e : PyExc) :
    jlookup (excToEnvelope src e) "schemaVersion" = some (.str SCHEMA) := by
  cases e <;> rfl

theorem excToEnvelope_source_none (src : String) (e : PyExc) :
    jlookup (excToEnvelope src e) "source" = none := by
  cases e <;> rfl

/-- Shape of every successful return of the anilist branch of
`search_media`: the envelope literal with `results` truncated by `[:limit]`. -/
theorem anilistAttempt_ok (g : String → Json → CallResult) (query kindU : String) (lim : Int)
    (formats : Option (List String)) (env : Json)
    (h : anilistAttempt g query kindU lim formats = .ok env) :
    ∃ hits : List Json,
      env = .obj [("schemaVersion", .str SCHEMA), ("query", .str query),
        ("kind", .str kindU), ("source", .str "anilist"),
        ("format_in", formatsJson formats), ("results", .arr (hits.take lim.toNat))] := by
  unfold anilistAttempt at h
  repeat' split at h
  all_goals first
    | exact Except.noConfusion h
    | (injection h with h; exact ⟨_, h.symm⟩)

/-- Shape of every successful return of the jikan branch of
`search_media`: the envelope literal with the *untruncated* item list. -/
theorem jikanBranch_ok (hg : String → CallResult) (query kindU : String) (lim : Int)
    (formats : Option (List String)) (env : Json)
    (h : jikanBranch hg query kindU lim formats = .ok env) :
    ∃ out : List Json,
      env = .obj [("schemaVersion", .str SCHEMA), ("query", .str query),
        ("kind", .str kindU), ("source", .str "jikan"),
        ("format_in", formatsJson formats), ("results", .arr out)] := by
  unfold jikanBranch at h
  repeat' split at h
  all_goals first
    | exact Except.noConfusion h
    | (injection h with h; exact ⟨_, h.symm⟩)

/-!
## C2 — retry bound of `_req`
-/

/-- C2: against the real `requests` library a transient-status response is
*not* retried: with a transport always answering 503, `_req` makes exactly
1 attempt and raises (the claimed behaviour — 3 attempts, and 2 attempts
for 503-then-200 — holds only under the test-suite's always-truthy
`DummyResponse`); network-level exceptions are retried as claimed. -/
theorem req_retry_attempt_counts :
    _req requestsRespBool (fun _ => .resp 503) = (.httpError 503, 1)
    ∧ _req dummyRespBool (fun _ => .resp 503) = (.httpError 503, 3)
    ∧ _req dummyRespBool (fun i => if i == 0 then .resp 503 else .resp 200) = (.ok 200, 2)
    ∧ _req requestsRespBool (fun _ => .netErr) = (.netError, 3)
    ∧ _req requestsRespBool (fun i => if i == 0 then .netErr else .resp 200) = (.ok 200, 2) :=
  ⟨rfl, rfl, rfl, rfl, rfl⟩

/-!
## C10 — unknown `source` returns `None`
-/

/-- C10: when `source` is neither exactly `"anilist"` nor `"jikan"`
(comparison is case-sensitive), `search_media` falls through both branches
and returns Python `None`, whatever the transports would answer. -/
theorem search_media_unknown_source_none (gqlFn : String → Json → CallResult)
    (httpGetFn : String → CallResult) (query kind source : String) (limit : Int)
    (format_in : Option (List String))
    (h1 : source ≠ "anilist") (h2 : source ≠ "jikan") :
    search_media gqlFn httpGetFn query kind source limit format_in = none := by
  unfold search_media
  simp [h1, h2]

/-- Witness for C10 at `source = "Jikan"`. -/
theorem search_media_unknown_source_none_witness :
    search_media (fun _ _ => .exc (.other "err")) (fun _ => .exc (.other "err"))
      "fullmetal" "ANIME" "Jikan" 5 none = none :=
  search_media_unknown_source_none _ _ _ _ _ _ _ (by decide) (by decide)

/-!
## C7 — jikan score normalization
-/

/-- C7: in every successfully normalized jikan item, a numeric `score`
`s` (0–10 scale) is stored as `int(s * 10)` (truncation toward zero), and
an absent `score` is stored as `null` — never as `0`. -/
theorem jikan_score_normalization (kindU : String) (fs : List (String × Json)) (hit : Json)
    (hok : jikanHitOfItem kindU (.obj fs) = .ok hit) :
    (∀ s : ℚ, List.lookup "score" fs = some (.num s) →
      jlookup hit "score" = some (.num ((ratTrunc (s * 10) : ℤ) : ℚ)))
    ∧ (List.lookup "score" fs = none → jlookup hit "score" = some Json.null) := by
  simp only [jikanHitOfItem] at hok
  split at hok
  · exact Except.noConfusion hok
  · injection hok with hok
    subst hok
    constructor
    · intro s hs
      simp [jlookup, jget, hs, jikanScore, List.lookup]
    · intro hs
      simp [jlookup, jget, hs, jikanScore, List.lookup]

def sampleJikanItem : Json := .obj [("score", .num ((17 : ℚ)/2))]

def sampleJikanHit : Json :=
  .obj [("source", .str "jikan"), ("id", .null), ("idMal", .null),
    ("titles", .obj [("romaji", .null), ("english", .null), ("native", .null)]),
    ("year", .null), ("format", .str ""), ("episodes", .null), ("chapters", .null),
    ("score", .num 85), ("url", .null)]

theorem ratTrunc_17_half_times_10 : ((ratTrunc (((17 : ℚ)/2) * 10) : ℤ) : ℚ) = 85 := by
  have hq : ((17 : ℚ)/2) * 10 = 85 := by norm_num
  rw [hq]
  norm_num [ratTrunc]
  decide

/-- Witness for C7: score 8.5 normalizes to 85. -/
theorem jikan_score_normalization_witness :
    jikanHitOfItem "ANIME" sampleJikanItem = .ok sampleJikanHit
    ∧ jlookup sampleJikanHit "score" = some (.num 85) := by
  have hok : jikanHitOfItem "ANIME" sampleJikanItem = .ok sampleJikanHit := by
    simp [jikanHitOfItem, sampleJikanItem, sampleJikanHit, jget, List.lookup, pyUpper,
      pyOr, Json.truthy, jikanScore, ratTrunc_17_half_times_10, strUpper]
  refine ⟨hok, ?_⟩
  have h := (jikan_score_normalization "ANIME" [("score", .num ((17 : ℚ)/2))]
    sampleJikanHit (by simpa [sampleJikanItem] using hok)).1 ((17 : ℚ)/2) rfl
  rwa [ratTrunc_17_half_times_10] at h

/-!
## C3 — cache TTL expiry
-/

theorem lookup_cacheInsert (k : String) (v : ℚ × Json) :
    ∀ l : List (String × ℚ × Json), List.lookup k (cacheInsert k v l) = some v := by
  intro l
  induction l with
  | nil => simp [cacheInsert, List.lookup]
  | cons hd t ih =>
    obtain ⟨k2, v2⟩ := hd
    by_cases hk : k2 = k
    · subst hk
      simp [cacheInsert, List.lookup]
    · have hins : cacheInsert k v ((k2, v2) :: t) = (k2, v2) :: cacheInsert k v t := by
        simp [cacheInsert, hk]
      rw [hins, List.lookup]
      have hkk : (k == k2) = false := by
        simp only [beq_eq_false_iff_ne]
        exact Ne.symm hk
      rw [hkk]
      exact ih

/-- A lookup at any time `u ≤ T + 300` after a store at `T` with TTL 300
is a hit (the eviction test is the strict `exp < now`). -/
theorem cache_get_after_set_hit (st : CacheState) (k : String) (v : Json) (T u : ℚ)
    (hu : u ≤ T + 300) :
    _cache_get (_cache_set st T k v 300) u k =
      (some v, { _cache_set st T k v 300 with hits := st.hits + 1 }) := by
  unfold _cache_get _cache_set
  rw [lookup_cacheInsert]
  dsimp only
  rw [if_neg (not_lt.mpr hu)]

/-- A lookup at any time `u > T + 300` after a store at `T` with TTL 300
is a miss that evicts the entry. -/
theorem cache_get_after_set_miss (st : CacheState) (k : String) (v : Json) (T u : ℚ)
    (hu : T + 300 < u) :
    _cache_get (_cache_set st T k v 300) u k =
      (none, { entries := cacheErase k (cacheInsert k (T + 300, v) st.entries),
               hits := st.hits, misses := st.misses + 1 }) := by
  unfold _cache_get _cache_set
  rw [lookup_cacheInsert]
  dsimp only
  rw [if_pos hu]

/-- C3 (amended): an entry stored at `T` with TTL 300 is a hit for every
lookup at time `u ≤ T + 300` (the boundary instant included, since the
code evicts only when `exp < now`), and a miss with eviction for every
`u > T + 300`; on a hit, `gql` returns the stored value whatever the
transport would do. -/
theorem cache_ttl_expiry (st : CacheState) (k : String) (v : Json) (T u : ℚ) :
    (u ≤ T + 300 →
      _cache_get (_cache_set st T k v 300) u k =
        (some v, { _cache_set st T k v 300 with hits := st.hits + 1 }))
    ∧ (T + 300 < u →
      _cache_get (_cache_set st T k v 300) u k =
        (none, { entries := cacheErase k (cacheInsert k (T + 300, v) st.entries),
                 hits := st.hits, misses := st.misses + 1 }))
    ∧ (∀ (fetch : Except String Json) (q : String) (vs : Json), u ≤ T + 300 →
      gql (_cache_set st T (_cache_key_gql q vs) v 300) u fetch q vs =
        (.ok v, { _cache_set st T (_cache_key_gql q vs) v 300 with hits := st.hits + 1 })) := by
  refine ⟨cache_get_after_set_hit st k v T u, cache_get_after_set_miss st k v T u, ?_⟩
  intro fetch q vs hu
  unfold gql
  rw [cache_get_after_set_hit st (_cache_key_gql q vs) v T u hu]

/-- Counterexample to C3 as stated: at exactly `T + 300` (here `T = 0`,
lookup at `300 ≥ 0 + 300`) the lookup is still a *hit* returning the
stored value, where the claim requires a miss. -/
theorem cache_ttl_boundary_counterexample :
    ((300 : ℚ) ≥ 0 + 300)
    ∧ (_cache_get (_cache_set ⟨[], 0, 0⟩ 0 "k" (Json.str "v") 300) 300 "k").1 =
        some (Json.str "v") := by
  constructor
  · norm_num
  · rw [cache_get_after_set_hit ⟨[], 0, 0⟩ "k" (Json.str "v") 0 300 (by norm_num)]

/-- Witness for C3 (amended) at `T = 0`, lookups at 299, 301 and a cached
`gql` call at 299 whose transport argument is a failure that is never
raised. -/
theorem cache_ttl_expiry_witness :
    _cache_get (_cache_set ⟨[], 0, 0⟩ 0 "k" (Json.str "v") 300) 299 "k" =
      (some (Json.str "v"), { _cache_set ⟨[], 0, 0⟩ 0 "k" (Json.str "v") 300 with hits := 0 + 1 })
    ∧ _cache_get (_cache_set ⟨[], 0, 0⟩ 0 "k" (Json.str "v") 300) 301 "k" =
      (none, { entries := cacheErase "k" (cacheInsert "k" ((0 : ℚ) + 300, Json.str "v") []),
               hits := 0, misses := 0 + 1 })
    ∧ gql (_cache_set ⟨[], 0, 0⟩ 0 (_cache_key_gql "Q" (.obj [])) (Json.str "v") 300) 299
        (.error "transport must not be invoked") "Q" (.obj []) =
      (.ok (Json.str "v"),
        { _cache_set ⟨[], 0, 0⟩ 0 (_cache_key_gql "Q" (.obj [])) (Json.str "v") 300 with
            hits := 0 + 1 }) :=
  ⟨(cache_ttl_expiry ⟨[], 0, 0⟩ "k" (Json.str "v") 0 299).1 (by norm_num),
   (cache_ttl_expiry ⟨[], 0, 0⟩ "k" (Json.str "v") 0 301).2.1 (by norm_num),
   (cache_ttl_expiry ⟨[], 0, 0⟩ "k" (Json.str "v") 0 299).2.2
     (.error "transport must not be invoked") "Q" (.obj []) (by norm_num)⟩

/-!
## C4 — GraphQL-level errors fail the call and are not cached
-/

/-- C4: on a cache miss (key absent), an upstream body containing an
`errors` field makes `gql` fail with the serialized error list, leaves
the entry map unchanged (only the miss counter moves), and a subsequent
identical call goes to the transport again and fails the same way. -/
theorem gql_errors_not_cached (st : CacheState) (now : ℚ) (q : String) (vs : Json)
    (bodyFs : List (String × Json)) (errs : Json)
    (hmiss : List.lookup (_cache_key_gql q vs) st.entries = none)
    (herr : List.lookup "errors" bodyFs = some errs) :
    gql st now (.ok (.obj bodyFs)) q vs =
      (.error (jsonDumps false errs), { st with misses := st.misses + 1 })
    ∧ (gql { st with misses := st.misses + 1 } now (.ok (.obj bodyFs)) q vs).1 =
      .error (jsonDumps false errs) := by
  have main : ∀ st' : CacheState, List.lookup (_cache_key_gql q vs) st'.entries = none →
      gql st' now (.ok (.obj bodyFs)) q vs =
        (.error (jsonDumps false errs), { st' with misses := st'.misses + 1 }) := by
    intro st' hm
    have hg : _cache_get st' now (_cache_key_gql q vs) =
        (none, { st' with misses := st'.misses + 1 }) := by
      unfold _cache_get
      rw [hm]
    unfold gql
    rw [hg]
    simp only [pyContains, herr, Option.isSome_some, pyIndex]
  refine ⟨main st hmiss, ?_⟩
  rw [main { st with misses := st.misses + 1 } hmiss]

/-- Witness for C4 on an empty cache and the body
`{"errors": ["boom"]}`. -/
theorem gql_errors_not_cached_witness :
    gql ⟨[], 0, 0⟩ 0 (.ok (.obj [("errors", .arr [.str "boom"])])) "Q" (.obj []) =
      (.error (jsonDumps false (.arr [.str "boom"])), ⟨[], 0, 1⟩)
    ∧ (gql ⟨[], 0, 1⟩ 0 (.ok (.obj [("errors", .arr [.str "boom"])])) "Q" (.obj [])).1 =
      .error (jsonDumps false (.arr [.str "boom"])) :=
  gql_errors_not_cached ⟨[], 0, 0⟩ 0 "Q" (.obj []) [("errors", .arr [.str "boom"])]
    (.arr [.str "boom"]) rfl rfl

/-!
## C8 — airing_status BAD_REQUEST and NOT_FOUND routing
-/

/-- C8: `airing_status` with neither id nor query — including the empty
string query — returns the `BAD_REQUEST` error envelope (whose
`error.code` is `"BAD_REQUEST"`); with a non-empty query resolving to
zero candidates it returns the `NOT_FOUND` status envelope, which carries
no `error` key. -/
theorem airing_bad_request_not_found (gqlFn : String → Json → CallResult)
    (q : String) (hq : q ≠ "")
    (hres : gqlFn airingSearchGql (.obj [("q", .str q)]) =
      .ok (.obj [("Page", .obj [("media", .arr [])])])) :
    airing_status gqlFn none none = err_payload "anilist" "BAD_REQUEST" "Provide anilist_id or query"
    ∧ airing_status gqlFn none (some "") =
        err_payload "anilist" "BAD_REQUEST" "Provide anilist_id or query"
    ∧ jlookup ((jlookup (airing_status gqlFn none none) "error").getD .null) "code" =
        some (.str "BAD_REQUEST")
    ∧ airing_status gqlFn none (some q) = notFoundEnv q
    ∧ jlookup (airing_status gqlFn none (some q)) "error" = none
    ∧ jlookup (airing_status gqlFn none (some q)) "status" = some (.str "NOT_FOUND") := by
  have h4 : airing_status gqlFn none (some q) = notFoundEnv q := by
    unfold airing_status airingBody
    dsimp only
    rw [if_neg (show ¬((q == "") = true) by simpa using hq)]
    rw [hres]
    rfl
  refine ⟨rfl, rfl, rfl, h4, ?_, ?_⟩
  · rw [h4]
    rfl
  · rw [h4]
    rfl

def emptyPageFn : String → Json → CallResult :=
  fun _ _ => .ok (.obj [("Page", .obj [("media", .arr [])])])

/-- Witness for C8 with a transport resolving every search to zero
candidates and the query `"naruto"`. -/
theorem airing_bad_request_not_found_witness :
    airing_status emptyPageFn none none =
        err_payload "anilist" "BAD_REQUEST" "Provide anilist_id or query"
    ∧ airing_status emptyPageFn none (some "") =
        err_payload "anilist" "BAD_REQUEST" "Provide anilist_id or query"
    ∧ jlookup ((jlookup (airing_status emptyPageFn none none) "error").getD .null) "code" =
        some (.str "BAD_REQUEST")
    ∧ airing_status emptyPageFn none (some "naruto") = notFoundEnv "naruto"
    ∧ jlookup (airing_status emptyPageFn none (some "naruto")) "error" = none
    ∧ jlookup (airing_status emptyPageFn none (some "naruto")) "status" =
        some (.str "NOT_FOUND") :=
  airing_bad_request_not_found emptyPageFn "naruto" (by decide) rfl

/-!
## C6 — limit clamping
-/

/-- Every `some`-result of `search_media` is the anilist envelope (with
truncated results), the jikan envelope (with the untruncated item list),
or an error envelope. -/
theorem search_media_cases (gqlFn : String → Json → CallResult) (httpGetFn : String → CallResult)
    (query kind source : String) (limit : Int) (format_in : Option (List String)) (env : Json)
    (henv : search_media gqlFn httpGetFn query kind source limit format_in = some env) :
    (∃ hits : List Json,
      env = .obj [("schemaVersion", .str SCHEMA), ("query", .str query),
        ("kind", .str (strUpper kind)), ("source", .str "anilist"),
        ("format_in", formatsJson (upperFormats format_in)),
        ("results", .arr (hits.take (clampLimit limit).toNat))])
    ∨ (∃ out : List Json,
      env = .obj [("schemaVersion", .str SCHEMA), ("query", .str query),
        ("kind", .str (strUpper kind)), ("source", .str "jikan"),
        ("format_in", formatsJson (upperFormats format_in)), ("results", .arr out)])
    ∨ (∃ e : PyExc, env = excToEnvelope source e) := by
  unfold search_media at henv
  split at henv
  · split at henv
    · injection henv with henv
      subst henv
      exact Or.inl (anilistAttempt_ok _ _ _ _ _ _ (by assumption))
    · split at henv
      · injection henv with henv
        subst henv
        exact Or.inr (Or.inl (jikanBranch_ok _ _ _ _ _ _ (by assumption)))
      · injection henv with henv
        subst henv
        exact Or.inr (Or.inr ⟨_, rfl⟩)
  · split at henv
    · split at henv
      · injection henv with henv
        subst henv
        exact Or.inr (Or.inl (jikanBranch_ok _ _ _ _ _ _ (by assumption)))
      · injection henv with henv
        subst henv
        exact Or.inr (Or.inr ⟨_, rfl⟩)
    · exact Option.noConfusion henv

/-- C6 (amended): the limit is clamped to `[1, 25]` (0 becomes 1, 100
becomes 25), and on the primary (anilist) path the returned results
sequence has length at most the clamped limit whatever the upstream
returns; the fallback (jikan) path passes the clamped limit upstream but
does not truncate the returned item list (see the counterexample). -/
theorem search_limit_clamping (gqlFn : String → Json → CallResult)
    (httpGetFn : String → CallResult) (query kind source : String) (limit : Int)
    (format_in : Option (List String)) (env : Json)
    (henv : search_media gqlFn httpGetFn query kind source limit format_in = some env)
    (hsrc : jlookup env "source" = some (.str "anilist")) :
    (∃ rs : List Json, jlookup env "results" = some (.arr rs) ∧
      rs.length ≤ (clampLimit limit).toNat)
    ∧ clampLimit 0 = 1 ∧ clampLimit 100 = 25
    ∧ 1 ≤ clampLimit limit ∧ clampLimit limit ≤ 25 := by
  rcases search_media_cases _ _ _ _ _ _ _ _ henv with ⟨hits, rfl⟩ | ⟨out, rfl⟩ | ⟨e, rfl⟩
  · refine ⟨⟨hits.take (clampLimit limit).toNat, ?_, ?_⟩, by decide, by decide, ?_, ?_⟩
    · simp [jlookup, List.lookup]
    · exact List.length_take_le _ _
    · exact le_min (le_max_right _ _) (by norm_num)
    · exact min_le_right _ _
  · exfalso
    simp [jlookup, List.lookup] at hsrc
  · exfalso
    rw [excToEnvelope_source_none] at hsrc
    exact Option.noConfusion hsrc

def resultsLen (o : Option Json) : Nat :=
  match o with
  | some env =>
    match jlookup env "results" with
    | some (.arr rs) => rs.length
    | _ => 0
  | none => 0

/-- Counterexample to C6 as stated: on the jikan path with clamped limit
1 and an upstream answering 2 items, `search_media` returns 2 results —
the fallback path never truncates to the limit. -/
theorem search_limit_clamping_counterexample :
    resultsLen (search_media (fun _ _ => .exc (.other "anilist down"))
      (fun _ => .ok (.obj [("data", .arr [.obj [], .obj []])]))
      "one piece" "ANIME" "jikan" 1 none) = 2
    ∧ clampLimit 1 = 1
    ∧ ¬((2 : Nat) ≤ (clampLimit 1).toNat) := ⟨rfl, rfl, by decide⟩

def anilistTwoFn : String → Json → CallResult :=
  fun _ _ => .ok (.obj [("Page", .obj [("media", .arr [.obj [], .obj []])])])

def emptyAnilistHit : Json :=
  .obj [("source", .str "anilist"), ("id", .null), ("idMal", .null),
    ("titles", .obj [("romaji", .null), ("english", .null), ("native", .null)]),
    ("year", .null), ("format", .null), ("episodes", .null), ("chapters", .null),
    ("score", .null), ("url", .null)]

def sampleAnilistEnv : Json :=
  .obj [("schemaVersion", .str "1.0.0"), ("query", .str "q"), ("kind", .str "ANIME"),
    ("source", .str "anilist"), ("format_in", .null), ("results", .arr [emptyAnilistHit])]

/-- Witness for C6 (amended): the anilist path with 2 upstream media
items and limit 1 returns exactly 1 result. -/
theorem search_limit_clamping_witness :
    search_media anilistTwoFn (fun _ => .exc (.other "down")) "q" "ANIME" "anilist" 1 none =
      some sampleAnilistEnv
    ∧ jlookup sampleAnilistEnv "source" = some (.str "anilist")
    ∧ ((∃ rs : List Json, jlookup sampleAnilistEnv "results" = some (.arr rs) ∧
        rs.length ≤ (clampLimit 1).toNat)
      ∧ clampLimit 0 = 1 ∧ clampLimit 100 = 25 ∧ 1 ≤ clampLimit 1 ∧ clampLimit 1 ≤ 25) :=
  ⟨rfl, rfl, search_limit_clamping anilistTwoFn (fun _ => .exc (.other "down"))
    "q" "ANIME" "anilist" 1 none sampleAnilistEnv rfl rfl⟩

/-!
## C1 — schema-version envelope invariant
-/

theorem airingWithMid_ok_schema (g : String → Json → CallResult) (mid env : Json)
    (h : airingWithMid g mid = .ok env) :
    jlookup env "schemaVersion" = some (.str SCHEMA) := by
  unfold airingWithMid at h
  repeat' split at h
  all_goals first
    | exact Except.noConfusion h
    | (injection h with h; subst h; rfl)

theorem airingBody_ok_schema (g : String → Json → CallResult) (aid : Option Int)
    (q : Option String) (env : Json) (h : airingBody g aid q = .ok env) :
    jlookup env "schemaVersion" = some (.str SCHEMA) := by
  unfold airingBody at h
  repeat' split at h
  all_goals first
    | exact Except.noConfusion h
    | exact airingWithMid_ok_schema _ _ _ h
    | (injection h with h; subst h; rfl)

/-- C1 (amended): every value returned by `search_media` for a `source`
that is exactly `"anilist"` or `"jikan"` is an envelope containing
`schemaVersion == "1.0.0"`, whatever the transports do; `airing_status`
returns such an envelope on *every* input. (For any other `source`
string, `search_media` returns `None` — see the counterexample.) -/
theorem response_envelope_schema (gqlFn : String → Json → CallResult)
    (httpGetFn : String → CallResult) (query kind source : String) (limit : Int)
    (format_in : Option (List String)) (hsrc : source = "anilist" ∨ source = "jikan") :
    (∃ env, search_media gqlFn httpGetFn query kind source limit format_in = some env ∧
      jlookup env "schemaVersion" = some (.str "1.0.0"))
    ∧ (∀ (aid : Option Int) (q : Option String),
      jlookup (airing_status gqlFn aid q) "schemaVersion" = some (.str "1.0.0")) := by
  constructor
  · have hsome : ∃ env,
        search_media gqlFn httpGetFn query kind source limit format_in = some env := by
      cases hv : search_media gqlFn httpGetFn query kind source limit format_in with
      | some env => exact ⟨env, rfl⟩
      | none =>
        exfalso
        unfold search_media at hv
        rcases hsrc with h | h <;> subst h
        · rw [if_pos (by rfl)] at hv
          split at hv
          · exact Option.noConfusion hv
          · split at hv
            · exact Option.noConfusion hv
            · exact Option.noConfusion hv
        · rw [if_neg (by decide), if_pos (by rfl)] at hv
          split at hv
          · exact Option.noConfusion hv
          · exact Option.noConfusion hv
    obtain ⟨env, henv⟩ := hsome
    refine ⟨env, henv, ?_⟩
    rcases search_media_cases _ _ _ _ _ _ _ _ henv with ⟨hits, rfl⟩ | ⟨out, rfl⟩ | ⟨e, rfl⟩
    · rfl
    · rfl
    · exact excToEnvelope_schema _ _
  · intro aid q
    cases hb : airingBody gqlFn aid q with
    | ok env =>
      unfold airing_status
      rw [hb]
      exact airingBody_ok_schema _ _ _ _ hb
    | error e =>
      unfold airing_status
      rw [hb]
      exact excToEnvelope_schema _ _

/-- Counterexample to C1 as stated: with `source = "Jikan"` — source is
not case-normalized — `search_media` returns Python `None`, not an
envelope, for every transport outcome. -/
theorem response_envelope_schema_counterexample :
    search_media (fun _ _ => .exc (.other "e")) (fun _ => .exc (.other "e"))
      "bleach" "ANIME" "Jikan" 3 none = none := rfl

/-- Witness for C1 (amended) at `source = "anilist"`. -/
theorem response_envelope_schema_witness :
    (∃ env, search_media anilistTwoFn (fun _ => .exc (.other "down"))
        "q2" "ANIME" "anilist" 5 none = some env ∧
      jlookup env "schemaVersion" = some (.str "1.0.0"))
    ∧ (∀ (aid : Option Int) (q : Option String),
      jlookup (airing_status anilistTwoFn aid q) "schemaVersion" = some (.str "1.0.0")) :=
  response_envelope_schema anilistTwoFn (fun _ => .exc (.other "down"))
    "q2" "ANIME" "anilist" 5 none (Or.inl rfl)

/-!
## C9 — totality of the primary-source normalizers

The claim's instance set is the media mappings whose fields are absent or
null (and otherwise well-shaped). The predicates below say each known
structured field is either absent, `null`, or of the shape the normalizer
destructs; every all-null (or all-absent) mapping satisfies them. A
`null`-valued `title` is excluded: it raises (see the counterexample).
-/

def isObj : Json → Bool
  | .obj _ => true
  | _ => false

theorem isObj_true {v : Json} (h : isObj v = true) : ∃ fs2, v = .obj fs2 := by
  cases v <;> first
    | exact ⟨_, rfl⟩
    | simp [isObj] at h

/-- Per-field shape condition under which `norm_hit_from_anilist` cannot
raise: `title` must be an object when present (the amendment), and
`startDate` absent, null or an object; every other field is unconstrained. -/
def hitFieldOk (kv : String × Json) : Bool :=
  if kv.1 = "title" then isObj kv.2
  else if kv.1 = "startDate" then
    (match kv.2 with
     | .null => true
     | .obj _ => true
     | _ => false)
  else true

def hitObjOk (fs : List (String × Json)) : Bool := fs.all hitFieldOk

/-- A recommendation node the loop can process: a dictionary whose
`mediaRecommendation` is falsy or a `hitObjOk` object. -/
def nodeOk : Json → Bool
  | .obj nfs =>
    !(pyOr (jget nfs "mediaRecommendation") (.obj [])).truthy ||
      (match pyOr (jget nfs "mediaRecommendation") (.obj []) with
       | .obj mfs => hitObjOk mfs
       | _ => false)
  | _ => false

/-- Per-field shape condition under which `norm_details_from_anilist`
cannot raise. -/
def detailsFieldOk (kv : String × Json) : Bool :=
  if kv.1 = "title" then isObj kv.2
  else if kv.1 = "recommendations" then
    (match pyOr kv.2 (.obj []) with
     | .obj rfs =>
       (match (List.lookup "nodes" rfs).getD (.arr []) with
        | .arr ns => ns.all nodeOk
        | _ => false)
     | _ => false)
  else if kv.1 = "externalLinks" then
    (match pyOr kv.2 (.arr []) with
     | .arr xs => xs.all isObj
     | _ => false)
  else if kv.1 = "tags" then
    (match pyOr kv.2 (.arr []) with
     | .arr xs => xs.all isObj
     | _ => false)
  else if kv.1 = "description" then
    (match pyOr kv.2 (.str "") with
     | .str _ => true
     | _ => false)
  else true

def detailsObjOk (fs : List (String × Json)) : Bool := fs.all detailsFieldOk

theorem all_lookup {p : String × Json → Bool} {fs : List (String × Json)} {k : String}
    {v : Json} (hall : fs.all p = true) (hl : List.lookup k fs = some v) : p (k, v) = true :=
  List.all_eq_true.mp hall _ (mem_of_lookup_eq_some hl)

theorem norm_title_lookup_total {p : String × Json → Bool} (fs : List (String × Json))
    (h : fs.all p = true) (hp : ∀ v, p ("title", v) = true → isObj v = true) :
    ∃ t, norm_title ((List.lookup "title" fs).getD (.obj [])) = .ok t := by
  cases hl : List.lookup "title" fs with
  | none => exact ⟨_, rfl⟩
  | some v =>
    obtain ⟨tfs, rfl⟩ := isObj_true (hp v (all_lookup h hl))
    exact ⟨_, rfl⟩

theorem pyOr_startDate_obj (fs : List (String × Json)) (h : hitObjOk fs = true) :
    ∃ sfs, pyOr ((List.lookup "startDate" fs).getD (.obj [])) (.obj []) = .obj sfs := by
  cases hl : List.lookup "startDate" fs with
  | none => exact ⟨[], rfl⟩
  | some v =>
    have hv := all_lookup h hl
    simp only [hitFieldOk] at hv
    norm_num at hv
    cases v with
    | null => exact ⟨[], rfl⟩
    | obj sfs =>
      by_cases ht : (Json.obj sfs).truthy = true
      · exact ⟨sfs, by simp [pyOr, ht]⟩
      · exact ⟨[], by simp [pyOr, ht]⟩
    | bool b => simp at hv
    | num q => simp at hv
    | str s => simp at hv
    | arr xs => simp at hv

theorem anilistYear_total (fs : List (String × Json)) (h : hitObjOk fs = true) :
    ∃ y, anilistYear fs = .ok y := by
  unfold anilistYear
  by_cases hs : (jget fs "seasonYear").truthy = true
  · rw [if_pos hs]
    exact ⟨_, rfl⟩
  · rw [if_neg hs]
    obtain ⟨sfs, hobj⟩ := pyOr_startDate_obj fs h
    rw [hobj]
    exact ⟨_, rfl⟩

/-- `norm_hit_from_anilist` is total on `hitObjOk` media objects. -/
theorem norm_hit_total (fs : List (String × Json)) (h : hitObjOk fs = true) :
    ∃ hit, norm_hit_from_anilist (.obj fs) = .ok hit := by
  obtain ⟨titles, htitles⟩ := norm_title_lookup_total fs h
    (fun v hv => by simpa [hitFieldOk] using hv)
  obtain ⟨y, hy⟩ := anilistYear_total fs h
  cases hres : norm_hit_from_anilist (.obj fs) with
  | ok hit => exact ⟨hit, rfl⟩
  | error e =>
    exfalso
    simp only [norm_hit_from_anilist] at hres
    rw [htitles, hy] at hres
    exact Except.noConfusion hres

theorem exMapM_total {f : Json → Except String Json} {p : Json → Bool}
    (hf : ∀ x, p x = true → ∃ y, f x = .ok y) :
    ∀ xs : List Json, xs.all p = true → ∃ ys, exMapM f xs = .ok ys := by
  intro xs
  induction xs with
  | nil => exact fun _ => ⟨[], rfl⟩
  | cons x rest ih =>
    intro h
    rw [List.all_cons, Bool.and_eq_true] at h
    obtain ⟨y, hy⟩ := hf x h.1
    obtain ⟨ys, hys⟩ := ih h.2
    refine ⟨y :: ys, ?_⟩
    simp only [exMapM]
    rw [hy, hys]

theorem recsLoop_total : ∀ ns : List Json, ns.all nodeOk = true →
    ∃ rs, recsLoop ns = .ok rs := by
  intro ns
  induction ns with
  | nil => exact fun _ => ⟨[], rfl⟩
  | cons n rest ih =>
    intro h
    rw [List.all_cons, Bool.and_eq_true] at h
    obtain ⟨hn, hrest⟩ := h
    obtain ⟨rs, hrs⟩ := ih hrest
    cases n with
    | obj nfs =>
      by_cases hmr : (pyOr (jget nfs "mediaRecommendation") (.obj [])).truthy = true
      · have hmobj : ∃ mfs, pyOr (jget nfs "mediaRecommendation") (.obj []) = .obj mfs ∧
            hitObjOk mfs = true := by
          simp only [nodeOk, hmr, Bool.not_true, Bool.false_or] at hn
          cases hpo : pyOr (jget nfs "mediaRecommendation") (.obj []) with
          | obj mfs =>
            rw [hpo] at hn
            exact ⟨mfs, rfl, hn⟩
          | null => rw [hpo] at hn; simp at hn
          | bool b => rw [hpo] at hn; simp at hn
          | num q => rw [hpo] at hn; simp at hn
          | str s => rw [hpo] at hn; simp at hn
          | arr xs => rw [hpo] at hn; simp at hn
        obtain ⟨mfs, hmfs, hok⟩ := hmobj
        obtain ⟨hit, hhit⟩ := norm_hit_total mfs hok
        refine ⟨hit :: rs, ?_⟩
        simp only [recsLoop]
        rw [if_pos hmr, hmfs, hhit, hrs]
      · refine ⟨rs, ?_⟩
        simp only [recsLoop]
        rw [if_neg hmr]
        exact hrs
    | null => simp [nodeOk] at hn
    | bool b => simp [nodeOk] at hn
    | num q => simp [nodeOk] at hn
    | str s => simp [nodeOk] at hn
    | arr xs => simp [nodeOk] at hn

theorem detailsRecs_total (fs : List (String × Json)) (h : detailsObjOk fs = true) :
    ∃ rs, detailsRecs fs = .ok rs := by
  cases hl : List.lookup "recommendations" fs with
  | none =>
    unfold detailsRecs
    rw [hl]
    exact recsLoop_total [] rfl
  | some v =>
    have hv := all_lookup h hl
    simp only [detailsFieldOk] at hv
    rw [if_neg (by decide)] at hv
    simp only [eq_self_iff_true, if_true] at hv
    unfold detailsRecs
    rw [hl]
    simp only [Option.getD_some]
    cases hpo : pyOr v (.obj []) with
    | obj rfs =>
      rw [hpo] at hv
      dsimp only at hv ⊢
      cases hnodes : (List.lookup "nodes" rfs).getD (.arr []) with
      | arr ns =>
        rw [hnodes] at hv
        obtain ⟨rs, hrs⟩ := recsLoop_total ns (by simpa using hv)
        exact ⟨rs, by simpa [pyIter] using hrs⟩
      | null => rw [hnodes] at hv; simp at hv
      | bool b => rw [hnodes] at hv; simp at hv
      | num q => rw [hnodes] at hv; simp at hv
      | str s => rw [hnodes] at hv; simp at hv
      | obj gs => rw [hnodes] at hv; simp at hv
    | null => rw [hpo] at hv; simp at hv
    | bool b => rw [hpo] at hv; simp at hv
    | num q => rw [hpo] at hv; simp at hv
    | str s => rw [hpo] at hv; simp at hv
    | arr xs => rw [hpo] at hv; simp at hv

theorem extItem_total : ∀ x : Json, isObj x = true → ∃ y, extItem x = .ok y := by
  intro x hx
  obtain ⟨efs, rfl⟩ := isObj_true hx
  exact ⟨_, rfl⟩

theorem tagName_total : ∀ x : Json, isObj x = true → ∃ y, tagName x = .ok y := by
  intro x hx
  obtain ⟨tfs, rfl⟩ := isObj_true hx
  exact ⟨_, rfl⟩

theorem detailsExternals_total (fs : List (String × Json)) (h : detailsObjOk fs = true) :
    ∃ es, detailsExternals fs = .ok es := by
  cases hl : List.lookup "externalLinks" fs with
  | none =>
    unfold detailsExternals
    rw [show jget fs "externalLinks" = Json.null by simp [jget, hl]]
    exact ⟨[], rfl⟩
  | some v =>
    have hv := all_lookup h hl
    simp only [detailsFieldOk] at hv
    rw [if_neg (by decide), if_neg (by decide)] at hv
    simp only [eq_self_iff_true, if_true] at hv
    unfold detailsExternals
    rw [show jget fs "externalLinks" = v by simp [jget, hl]]
    cases hpo : pyOr v (.arr []) with
    | arr xs =>
      rw [hpo] at hv
      obtain ⟨ys, hys⟩ := exMapM_total extItem_total xs (by simpa using hv)
      exact ⟨ys, by simpa [pyIter] using hys⟩
    | null => rw [hpo] at hv; simp at hv
    | bool b => rw [hpo] at hv; simp at hv
    | num q => rw [hpo] at hv; simp at hv
    | str s => rw [hpo] at hv; simp at hv
    | obj gs => rw [hpo] at hv; simp at hv

theorem detailsTags_total (fs : List (String × Json)) (h : detailsObjOk fs = true) :
    ∃ ts, detailsTags fs = .ok ts := by
  cases hl : List.lookup "tags" fs with
  | none =>
    unfold detailsTags
    rw [show jget fs "tags" = Json.null by simp [jget, hl]]
    exact ⟨[], rfl⟩
  | some v =>
    have hv := all_lookup h hl
    simp only [detailsFieldOk] at hv
    rw [if_neg (by decide), if_neg (by decide), if_neg (by decide)] at hv
    simp only [eq_self_iff_true, if_true] at hv
    unfold detailsTags
    rw [show jget fs "tags" = v by simp [jget, hl]]
    cases hpo : pyOr v (.arr []) with
    | arr xs =>
      rw [hpo] at hv
      obtain ⟨ys, hys⟩ := exMapM_total tagName_total xs (by simpa using hv)
      exact ⟨ys, by simpa [pyIter] using hys⟩
    | null => rw [hpo] at hv; simp at hv
    | bool b => rw [hpo] at hv; simp at hv
    | num q => rw [hpo] at hv; simp at hv
    | str s => rw [hpo] at hv; simp at hv
    | obj gs => rw [hpo] at hv; simp at hv

theorem detailsSynopsis_total (fs : List (String × Json)) (h : detailsObjOk fs = true) :
    ∃ s, detailsSynopsis fs = .ok s := by
  cases hl : List.lookup "description" fs with
  | none =>
    unfold detailsSynopsis
    rw [show jget fs "description" = Json.null by simp [jget, hl]]
    exact ⟨_, rfl⟩
  | some v =>
    have hv := all_lookup h hl
    simp only [detailsFieldOk] at hv
    rw [if_neg (by decide), if_neg (by decide), if_neg (by decide), if_neg (by decide)] at hv
    simp only [eq_self_iff_true, if_true] at hv
    unfold detailsSynopsis
    rw [show jget fs "description" = v by simp [jget, hl]]
    cases hpo : pyOr v (.str "") with
    | str s => exact ⟨_, rfl⟩
    | null => rw [hpo] at hv; simp at hv
    | bool b => rw [hpo] at hv; simp at hv
    | num q => rw [hpo] at hv; simp at hv
    | arr xs => rw [hpo] at hv; simp at hv
    | obj gs => rw [hpo] at hv; simp at hv

/-- `norm_details_from_anilist` is total on `detailsObjOk` media objects. -/
theorem norm_details_total (fs : List (String × Json)) (h : detailsObjOk fs = true) :
    ∃ det, norm_details_from_anilist (.obj fs) = .ok det := by
  obtain ⟨recs, hrecs⟩ := detailsRecs_total fs h
  obtain ⟨exts, hexts⟩ := detailsExternals_total fs h
  obtain ⟨titles, htitles⟩ := norm_title_lookup_total fs h
    (fun v hv => by simpa [detailsFieldOk] using hv)
  obtain ⟨tags, htags⟩ := detailsTags_total fs h
  obtain ⟨syn, hsyn⟩ := detailsSynopsis_total fs h
  cases hres : norm_details_from_anilist (.obj fs) with
  | ok det => exact ⟨det, rfl⟩
  | error e =>
    exfalso
    simp only [norm_details_from_anilist] at hres
    rw [hrecs, hexts, htitles, htags, hsyn] at hres
    exact Except.noConfusion hres

/-- C9 (amended): `norm_title` is total on every dictionary input, and
`norm_hit_from_anilist` / `norm_details_from_anilist` are total on every
media dictionary whose fields are absent, null, or of the destructed
shape — except that a *present* `title` must be a dictionary: a
`title: null` field raises (see the counterexample). All-absent and
all-null-but-title mappings satisfy the predicates. -/
theorem normalizers_totality :
    (∀ tfs : List (String × Json), ∃ t, norm_title (.obj tfs) = .ok t)
    ∧ (∀ fs : List (String × Json), hitObjOk fs = true →
        ∃ hit, norm_hit_from_anilist (.obj fs) = .ok hit)
    ∧ (∀ fs : List (String × Json), detailsObjOk fs = true →
        ∃ det, norm_details_from_anilist (.obj fs) = .ok det) :=
  ⟨fun _ => ⟨_, rfl⟩, norm_hit_total, norm_details_total⟩

/-- Counterexample to C9 as stated: a `null`-valued (not absent) `title`
field raises `AttributeError` (`None.get`) in both normalizers — "absent
or null" is too strong for `title`. -/
theorem normalizers_null_title_counterexample :
    norm_hit_from_anilist (.obj [("title", Json.null)]) = .error "AttributeError: get"
    ∧ norm_details_from_anilist (.obj [("title", Json.null)]) = .error "AttributeError: get" :=
  ⟨rfl, rfl⟩

/-- Witness for C9 (amended) on concrete mappings with absent and null
fields. -/
theorem normalizers_totality_witness :
    (∃ t, norm_title (.obj [("romaji", Json.null)]) = .ok t)
    ∧ hitObjOk [("title", Json.obj []), ("averageScore", Json.null),
        ("startDate", Json.null)] = true
    ∧ (∃ hit, norm_hit_from_anilist (.obj [("title", Json.obj []),
        ("averageScore", Json.null), ("startDate", Json.null)]) = .ok hit)
    ∧ detailsObjOk [("description", Json.null), ("tags", Json.null),
        ("recommendations", Json.null), ("externalLinks", Json.null)] = true
    ∧ (∃ det, norm_details_from_anilist (.obj [("description", Json.null),
        ("tags", Json.null), ("recommendations", Json.null),
        ("externalLinks", Json.null)]) = .ok det) :=
  ⟨normalizers_totality.1 [("romaji", Json.null)],
   by decide,
   normalizers_totality.2.1 _ (by decide),
   by decide,
   normalizers_totality.2.2 _ (by decide)⟩

/-!
## C5 — cache-key determinism under key reordering
-/

theorem mergeSort_by_key_eq (l1 l2 : List (String × String))
    (hp : l1.Perm l2) (hk : l1.Pairwise (fun a b => a.1 ≠ b.1)) :
    l1.mergeSort (fun a b => decide (a.1 ≤ b.1)) =
    l2.mergeSort (fun a b => decide (a.1 ≤ b.1)) := by
  have trans : ∀ a b c : String × String, decide (a.1 ≤ b.1) = true →
      decide (b.1 ≤ c.1) = true → decide (a.1 ≤ c.1) = true := by
    intro a b c h1 h2
    simp only [decide_eq_true_eq] at h1 h2 ⊢
    exact le_trans h1 h2
  have total : ∀ a b : String × String,
      (decide (a.1 ≤ b.1) || decide (b.1 ≤ a.1)) = true := by
    intro a b
    simp only [Bool.or_eq_true, decide_eq_true_eq]
    exact le_total a.1 b.1
  have hs1 := @List.sorted_mergeSort (String × String)
    (fun a b => decide (a.1 ≤ b.1)) trans total l1
  have hs2 := @List.sorted_mergeSort (String × String)
    (fun a b => decide (a.1 ≤ b.1)) trans total l2
  have hk1 : (l1.mergeSort (fun a b => decide (a.1 ≤ b.1))).Pairwise
      (fun a b => a.1 ≠ b.1) :=
    (List.mergeSort_perm l1 _).symm.pairwise hk (fun h => h.symm)
  have hk2 : (l2.mergeSort (fun a b => decide (a.1 ≤ b.1))).Pairwise
      (fun a b => a.1 ≠ b.1) :=
    (List.mergeSort_perm l2 _).symm.pairwise (hp.pairwise hk (fun h => h.symm))
      (fun h => h.symm)
  have comb1 : (l1.mergeSort (fun a b => decide (a.1 ≤ b.1))).Pairwise
      (fun a b : String × String => a.1 < b.1) :=
    (hs1.and hk1).imp (fun h => lt_of_le_of_ne (by simpa using h.1) h.2)
  have comb2 : (l2.mergeSort (fun a b => decide (a.1 ≤ b.1))).Pairwise
      (fun a b : String × String => a.1 < b.1) :=
    (hs2.and hk2).imp (fun h => lt_of_le_of_ne (by simpa using h.1) h.2)
  have hpm : (l1.mergeSort (fun a b => decide (a.1 ≤ b.1))).Perm
      (l2.mergeSort (fun a b => decide (a.1 ≤ b.1))) :=
    ((List.mergeSort_perm l1 _).trans hp).trans (List.mergeSort_perm l2 _).symm
  haveI : IsAntisymm (String × String) (fun a b => a.1 < b.1) :=
    ⟨fun _ _ h1 h2 => ((lt_asymm h1) h2).elim⟩
  exact List.eq_of_perm_of_sorted hpm comb1 comb2

theorem jsonDumps_obj (b : Bool) (fs : List (String × Json)) :
    jsonDumps b (.obj fs) =
      "\x7b" ++ ", ".intercalate
        ((if b then (fs.map (fun kv => (kv.1, jsonDumps b kv.2))).mergeSort
              (fun a c => decide (a.1 ≤ c.1))
          else fs.map (fun kv => (kv.1, jsonDumps b kv.2))).map
          (fun p => strRepr p.1 ++ ": " ++ p.2)) ++ "\x7d" := by
  simp only [jsonDumps]
  rw [List.attach_map_val fs (fun p => (p.1, jsonDumps b p.2))]

/-- C5: the cache key is insensitive to the insertion order of the
variables mapping — for any two dictionaries equal as sets of key-value
pairs (a permutation with distinct keys), the key coincides. -/
theorem cache_key_order_insensitive (Q : String) (V1 V2 : List (String × Json))
    (hp : V1.Perm V2) (hk : V1.Pairwise (fun a b => a.1 ≠ b.1)) :
    _cache_key_gql Q (.obj V1) = _cache_key_gql Q (.obj V2) := by
  have hdumps : jsonDumps true (.obj V1) = jsonDumps true (.obj V2) := by
    rw [jsonDumps_obj, jsonDumps_obj]
    simp only [if_true]
    rw [mergeSort_by_key_eq (V1.map (fun kv => (kv.1, jsonDumps true kv.2)))
      (V2.map (fun kv => (kv.1, jsonDumps true kv.2))) (hp.map _)
      (by rw [List.pairwise_map]; exact hk)]
  unfold _cache_key_gql
  rw [hdumps]

/-- Witness for C5 on `{"b": 1, "a": "x"}` versus `{"a": "x", "b": 1}`. -/
theorem cache_key_order_insensitive_witness :
    _cache_key_gql "Q" (.obj [("b", Json.num 1), ("a", Json.str "x")]) =
    _cache_key_gql "Q" (.obj [("a", Json.str "x"), ("b", Json.num 1)]) :=
  cache_key_order_insensitive "Q" [("b", Json.num 1), ("a", Json.str "x")]
    [("a", Json.str "x"), ("b", Json.num 1)]
    (List.Perm.swap ("a", Json.str "x") ("b", Json.num 1) [])
    (by simp)
